import Mathlib

/-!
Verification of the InsuranceLens frontend (ai-makerspace-bootcamp,
11_Certification_Challenge) against its specification.

The repository ships a Next.js/TypeScript frontend
(frontend/src/types/index.ts, frontend/src/utils/api.ts, the FileUpload
and PolicyTabs components, and the page-level handleUploadComplete
conversion) while the Python backend (chunking, vector store, norm
comparator, question router) is declared scaffolding in PROGRESS.md and
is not present.  Frontend behaviour is embedded directly from the
TypeScript source; the missing backend operations are modelled from the
specification where a claim needs them, and each such definition says so
in its doc comment.

JavaScript runtime values are modelled by the inductive type `Json`
below (numbers as integers, which is faithful for every claim treated
here, none of which depends on fractional arithmetic).  A TypeScript
interface is embedded as a boolean schema checker over `Json`, matching
structural typing of the interfaces in types/index.ts.
-/

/-- A JavaScript runtime value as handled by the frontend: null, boolean,
number, string, array or plain object.  Objects are association lists of
field names to values. -/
inductive Json where
  | null : Json
  | bool : Bool → Json
  | num : Int → Json
  | str : String → Json
  | arr : List Json → Json
  | obj : List (String × Json) → Json
deriving Repr

/-- Lookup of a field in an object-literal association list: first match
wins, as in a JavaScript object. -/
def lookupField : List (String × Json) → String → Option Json
  | [], _ => none
  | (k, v) :: rest, key => if k == key then some v else lookupField rest key

/-- Property access `value[key]` as observable by the frontend code: a
field of an object, the `length` property of an array, and nothing on
primitives. -/
def Json.getField : Json → String → Option Json
  | .obj fields, key => lookupField fields key
  | .arr xs, key => if key == "length" then some (.num (xs.length : Int)) else none
  | _, _ => none

/-- The JavaScript `in` operator restricted to the properties `getField`
models: `key in value` holds when the property is present. -/
def Json.hasField (j : Json) (key : String) : Bool :=
  (j.getField key).isSome

/-- Whether `typeof value === "object"` holds in JavaScript: true for
null, arrays and plain objects, false for booleans, numbers, strings. -/
def Json.typeofIsObject : Json → Bool
  | .null => true
  | .arr _ => true
  | .obj _ => true
  | _ => false

/-- JavaScript truthiness: null, false, 0 and the empty string are falsy,
every array and object is truthy. -/
def Json.truthy : Json → Bool
  | .null => false
  | .bool b => b
  | .num n => n != 0
  | .str s => s != ""
  | .arr _ => true
  | .obj _ => true

mutual
/-- The JavaScript `String(value)` coercion as used by the upload
conversion: strings pass through, numbers and booleans print, null prints
as `null`, a plain object prints as `[object Object]` and an array joins
the printed elements with commas (null elements print empty, as in
`Array.prototype.toString`). -/
def jsToString : Json → String
  | .null => "null"
  | .bool true => "true"
  | .bool false => "false"
  | .num n => toString n
  | .str s => s
  | .obj _ => "[object Object]"
  | .arr xs => String.intercalate "," (jsToStringList xs)

/-- Printed forms of array elements for `jsToString`. -/
def jsToStringList : List Json → List String
  | [] => []
  | .null :: rest => "" :: jsToStringList rest
  | x :: rest => jsToString x :: jsToStringList rest
end

/-- Whether a value has a string-valued field `key` (interface member
`key: string`). -/
def isStringField (j : Json) (key : String) : Bool :=
  match j.getField key with
  | some (.str _) => true
  | _ => false

/-- Whether a value has a number-valued field `key` (interface member
`key: number`). -/
def isNumField (j : Json) (key : String) : Bool :=
  match j.getField key with
  | some (.num _) => true
  | _ => false

/-- Whether a value has an optional number-valued field `key` (interface
member `key?: number`): absent, or present with a number. -/
def isOptNumField (j : Json) (key : String) : Bool :=
  match j.getField key with
  | none => true
  | some (.num _) => true
  | _ => false

/-- Schema checker for the interface `Citation` of
frontend/src/types/index.ts: `chunk_id: string`, `page_number?: number`,
`text_snippet: string`, `relevance_score: number`. -/
def isCitation (j : Json) : Bool :=
  isStringField j "chunk_id" &&
  isOptNumField j "page_number" &&
  isStringField j "text_snippet" &&
  isNumField j "relevance_score"

/-- Whether a value is the string literal union type of the
`question_type` member of `AnswerResponse`: the string
`policy_specific` or the string `general_insurance`. -/
def isQuestionTypeValue (j : Json) : Bool :=
  match j with
  | .str s => s == "policy_specific" || s == "general_insurance"
  | _ => false

/-- Whether a value is an array whose elements all satisfy `isCitation`
(interface member `citations: Citation[]`). -/
def isCitationArray (j : Json) : Bool :=
  match j with
  | .arr xs => xs.all isCitation
  | _ => false

/-- Whether a value is an array of strings (interface member
`web_sources: string[]`). -/
def isStringArray (j : Json) : Bool :=
  match j with
  | .arr xs => xs.all (fun x => match x with | .str _ => true | _ => false)
  | _ => false

/-- Schema checker for the interface `AnswerResponse` of
frontend/src/types/index.ts: `answer: string`,
`question_type` restricted to `policy_specific` or `general_insurance`,
`citations: Citation[]`, `web_sources: string[]`,
`confidence: number`. -/
def isAnswerResponse (j : Json) : Bool :=
  isStringField j "answer" &&
  (match j.getField "question_type" with
   | some q => isQuestionTypeValue q
   | none => false) &&
  (match j.getField "citations" with
   | some c => isCitationArray c
   | none => false) &&
  (match j.getField "web_sources" with
   | some w => isStringArray w
   | none => false) &&
  isNumField j "confidence"

/-- Schema checker for the interface `QuestionRequest` of
frontend/src/types/index.ts: `policy_id: string` (required) and
`question: string`. -/
def isQuestionRequest (j : Json) : Bool :=
  isStringField j "policy_id" &&
  isStringField j "question"

/-! ## Frontend data structures (types/index.ts) -/

/-- The interface `HighlightedClause` of frontend/src/types/index.ts:
`clause_id`, `title`, `text`, `reason`, `norm_comparison`, `category`
are strings; `page_number?: number` is optional. -/
structure HighlightedClause where
  clause_id : String
  title : String
  text : String
  reason : String
  norm_comparison : String
  category : String
  page_number : Option Int
deriving Repr, DecidableEq

/-- The interface `PolicyUploadResponse` of frontend/src/types/index.ts.
The `highlights` member is typed `HighlightedClause[]`, but the
page-level conversion treats each element as untrusted runtime data, so
the embedding keeps the elements as raw `Json`. -/
structure PolicyUploadResponse where
  policy_id : String
  filename : String
  total_chunks : Nat
  highlights : List Json
deriving Repr

/-- The interface `PolicyOverview` of frontend/src/types/index.ts. -/
structure PolicyOverview where
  policy_id : String
  filename : String
  upload_date : String
  total_pages : Nat
  total_chunks : Nat
  highlighted_clauses : List HighlightedClause
deriving Repr

/-! ## Upload-result conversion (handleUploadComplete in the page component) -/

/-- The guard testing that `typeof highlight` is `object` and that
`highlight` is truthy, used by
handleUploadComplete before every field access: the value has object
type and is truthy (so not null). -/
def isTruthyObject (h : Json) : Bool :=
  h.typeofIsObject && h.truthy

/-- One field of the handleUploadComplete conversion:
when `h` is a truthy object with the property `key` present, coerce that
field with `String(...)`, otherwise use the fallback. -/
def coerceStringField (h : Json) (key : String) (fallback : String) : String :=
  if isTruthyObject h && h.hasField key then
    match h.getField key with
    | some v => jsToString v
    | none => fallback
  else fallback

/-- The per-highlight conversion inside handleUploadComplete
(frontend page component, quoted in the README): builds a
`HighlightedClause` from an arbitrary runtime value, coercing present
fields with `String(...)`, defaulting `title` to `Unbenannte Klausel`,
`category` to `other` and the other strings to the empty string, and
keeping `page_number` only when the incoming field is a number.
`index` and `now` feed the generated `clause_id`
(`clause-index-Date.now()`). -/
def convertHighlight (index : Nat) (now : Int) (h : Json) : HighlightedClause :=
  ⟨"clause-" ++ toString index ++ "-" ++ toString now,
   coerceStringField h "title" "Unbenannte Klausel",
   coerceStringField h "text" "",
   coerceStringField h "reason" "",
   coerceStringField h "norm_comparison" "",
   coerceStringField h "category" "other",
   if isTruthyObject h then
     match h.getField "page_number" with
     | some (.num n) => some n
     | _ => none
   else none⟩

/-- `list.map((x, i) => f i x)` of JavaScript: map with the element index. -/
def mapWithIndex (f : Nat → Json → HighlightedClause) : Nat → List Json → List HighlightedClause
  | _, [] => []
  | i, h :: rest => f i h :: mapWithIndex f (i + 1) rest

/-- handleUploadComplete of the page component: converts a
`PolicyUploadResponse` into the `PolicyOverview` shown by the tabs,
setting `upload_date` to the current ISO timestamp, `total_pages` to 0
(populated later by the backend) and converting each highlight payload
with `convertHighlight`. -/
def handleUploadComplete (now : Int) (nowIso : String) (result : PolicyUploadResponse) : PolicyOverview :=
  ⟨result.policy_id,
   result.filename,
   nowIso,
   0,
   result.total_chunks,
   mapWithIndex (fun i h => convertHighlight i now h) 0 result.highlights⟩

/-! ## Shared fetch helper (utils/api.ts) -/

/-- What fetchApi observes of an HTTP response: the status code, the
status text, and the result of `response.json()` (`none` when the body
does not parse as JSON). -/
structure HttpResponse where
  status : Nat
  statusText : String
  jsonBody : Option Json
deriving Repr

/-- The `response.ok` flag of the Fetch API: status in the range
200 to 299. -/
def responseOk (r : HttpResponse) : Bool :=
  200 ≤ r.status && r.status < 300

/-- Outcome of a fetchApi call: the parsed JSON body on success, an
`ApiError` carrying status and message on a non-ok response, or a
rejection when an ok body does not parse as JSON. -/
inductive FetchResult where
  | success (body : Json)
  | apiError (status : Nat) (message : String)
  | parseFailure
deriving Repr

/-- `candidate || fallback` for the error-message chain of fetchApi: use
the printed candidate when it is truthy, the fallback otherwise or when
the field is absent. -/
def truthyStringOr (candidate : Option Json) (fallback : String) : String :=
  match candidate with
  | some v => if v.truthy then jsToString v else fallback
  | none => fallback

/-- The error message fetchApi builds on a non-ok response: start from
`HTTP status`; when the body parses as JSON null, the property access
`errorData.detail` throws a TypeError inside the try block, so the
catch path takes `response.statusText || errorMessage`; when the body
parses as any other value, take `errorData.detail || errorData.error ||
errorMessage` (property access on a non-null primitive yields undefined
and falls through without throwing); when parsing fails, the catch path
likewise takes `response.statusText || errorMessage`. -/
def fetchApiErrorMessage (r : HttpResponse) : String :=
  let base := "HTTP " ++ toString r.status
  match r.jsonBody with
  | some Json.null => if r.statusText != "" then r.statusText else base
  | some data =>
      truthyStringOr (data.getField "detail") (truthyStringOr (data.getField "error") base)
  | none => if r.statusText != "" then r.statusText else base

/-- fetchApi of frontend/src/utils/api.ts: on a non-ok status, throw an
`ApiError` with that status and the message of `fetchApiErrorMessage`;
on an ok status, return the parsed JSON body. -/
def fetchApi (r : HttpResponse) : FetchResult :=
  if responseOk r then
    match r.jsonBody with
    | some body => .success body
    | none => .parseFailure
  else
    .apiError r.status (fetchApiErrorMessage r)

/-! ## File validation (FileUpload component, handleFile) -/

/-- Whether one character list occurs at the head of another. -/
def startsWithChars : List Char → List Char → Bool
  | [], _ => true
  | _ :: _, [] => false
  | a :: as, b :: bs => a == b && startsWithChars as bs

/-- Whether one character list occurs contiguously inside another. -/
def containsChars (pattern : List Char) : List Char → Bool
  | [] => startsWithChars pattern []
  | b :: bs => startsWithChars pattern (b :: bs) || containsChars pattern bs

/-- The JavaScript `String.prototype.includes` used by handleFile on the
MIME type. -/
def stringIncludes (s pattern : String) : Bool :=
  containsChars pattern.toList s.toList

/-- What handleFile observes of a `File`: its MIME type (`file.type`)
and its size in bytes (`file.size`). -/
structure UploadFile where
  mimeType : String
  size : Nat
deriving Repr

/-- Outcome of handleFile: the file is rejected with an error message
before any API call, or it is passed to `api.uploadPolicy`. -/
inductive UploadAction where
  | rejected (errorMessage : String)
  | uploaded
deriving Repr, DecidableEq

/-- handleFile of the FileUpload component: reject non-PDF MIME types
with a message, then reject files over 50 * 1024 * 1024 bytes with a
message, and only otherwise call the upload API. -/
def handleFile (f : UploadFile) : UploadAction :=
  if !(stringIncludes f.mimeType "pdf") then
    .rejected "Bitte wählen Sie eine PDF-Datei aus."
  else if f.size > 50 * 1024 * 1024 then
    .rejected "Die Datei ist zu groß. Maximum: 50MB"
  else
    .uploaded

/-! ## Question tab (PolicyTabs component) -/

/-- The JavaScript `String.prototype.trim` used by PolicyTabs on the
question input: strip whitespace from both ends. -/
def jsTrim (s : String) : String :=
  ⟨((s.toList.dropWhile Char.isWhitespace).reverse.dropWhile Char.isWhitespace).reverse⟩

/-- The disabled condition of the ask button in PolicyTabs:
`disabled={!question.trim()}`. -/
def askButtonDisabled (question : String) : Bool :=
  jsTrim question == ""

/-- The click handler of the ask button in PolicyTabs: when the trimmed
question is non-empty, invoke `onAskQuestion` with the (untrimmed)
question and reset the input state to the empty string; otherwise do
nothing.  Returns the argument passed to the callback (if any) and the
new input state. -/
def handleAskClick (question : String) : Option String × String :=
  if jsTrim question != "" then (some question, "") else (none, question)

/-- What the Highlights tab of PolicyTabs renders for the highlight
list: the empty-state block, or the list of clause cards. -/
inductive HighlightsPanel where
  | emptyState
  | clauseList (clauses : List HighlightedClause)
deriving Repr

/-- The Highlights tab of PolicyTabs: when
`policy.highlighted_clauses.length === 0` it renders the informational
empty-state block (no error state exists in the component), otherwise
the list of clause cards. -/
def renderHighlightsTab (clauses : List HighlightedClause) : HighlightsPanel :=
  if clauses.length == 0 then .emptyState else .clauseList clauses

/-! ## Question router (backend, modelled from the spec) -/

/-- The two terminal classifications of the question router
(types/index.ts string literal union, spec section 4.4). -/
inductive QuestionType where
  | policy_specific
  | general_insurance
deriving Repr, DecidableEq

/-- Modelled from the spec: the backend Question Router is not present
in the repository (PROGRESS.md lists it as unimplemented).  Spec section
4.4: the decision uses a language-model classification call on the
question text, but if no document id is supplied the router forces
`general_insurance` regardless of content.  The classification call is a
parameter. -/
def routeQuestion (documentId : Option String) (classify : String → QuestionType)
    (questionText : String) : QuestionType :=
  match documentId with
  | none => .general_insurance
  | some _ => classify questionText

/-! ## Chunking unit (backend, modelled from the spec) -/

/-- Modelled from the spec: the backend Chunking and Embedding Unit is
not present in the repository.  Spec section 4.1 requires a fixed,
deterministic tokenizer; splitting on spaces is one such fixed rule. -/
def tokenize (text : String) : List String :=
  text.splitOn " "

/-- A chunk of tokenized text: the index of its first token in the
document and its token list. -/
structure TextChunk where
  startToken : Nat
  tokens : List String
deriving Repr, DecidableEq

/-- Modelled from the spec: sliding-window chunking per spec section
4.1 — each chunk holds at most `maxTokens` tokens and consecutive chunks
overlap by `overlap` tokens, so the window advances by
`maxTokens - overlap` (a degenerate configuration with no advance
produces a single chunk rather than looping). -/
def chunkTokens (maxTokens overlap : Nat) : Nat → List String → List TextChunk
  | start, tokens =>
    if tokens.length ≤ maxTokens then
      [⟨start, tokens⟩]
    else
      let step := maxTokens - overlap
      if step = 0 then
        [⟨start, tokens⟩]
      else
        ⟨start, tokens.take maxTokens⟩ ::
          chunkTokens maxTokens overlap (start + step) (tokens.drop step)
termination_by _ tokens => tokens.length
decreasing_by
  simp only [List.length_drop]
  omega

/-- Modelled from the spec: the Chunking and Embedding Unit on raw
document text — tokenize deterministically, then window into chunks. -/
def chunkText (maxTokens overlap : Nat) (text : String) : List TextChunk :=
  chunkTokens maxTokens overlap 0 (tokenize text)

/-! ## Norm comparator / highlighter (backend, modelled from the spec) -/

/-- A document chunk together with the deviation score the comparator
assigned against its nearest norm (spec section 4.3).  Scores are kept
as integers (a fixed-point scaling of the real-valued score); the
selection logic below only compares them. -/
structure ScoredChunk where
  chunkId : String
  text : String
  deviation : Int
  pageNumber : Option Int
deriving Repr, DecidableEq

/-- Insertion into a list sorted by descending deviation score. -/
def insertDesc (c : ScoredChunk) : List ScoredChunk → List ScoredChunk
  | [] => [c]
  | x :: xs => if x.deviation ≤ c.deviation then c :: x :: xs else x :: insertDesc c xs

/-- Modelled from the spec: rank chunks by deviation score descending
(spec section 4.3 step 3). -/
def sortDesc : List ScoredChunk → List ScoredChunk
  | [] => []
  | c :: cs => insertDesc c (sortDesc cs)

/-- Modelled from the spec: deduplication of near-identical clauses
(spec section 4.3 step 3) — walking the ranked list, drop every later
chunk whose similarity to an already kept chunk is above the dedupe
threshold; `similar` is the cosine-similarity comparison, a parameter
because embeddings live in an external collaborator. -/
def dedupClauses (similar : ScoredChunk → ScoredChunk → Bool) : List ScoredChunk → List ScoredChunk
  | [] => []
  | c :: cs => c :: dedupClauses similar (cs.filter (fun d => !(similar c d)))
termination_by cs => cs.length
decreasing_by
  exact Nat.lt_succ_of_le (List.length_filter_le _ _)

/-- Modelled from the spec: highlight selection of the Norm Comparator
(spec section 4.3) — rank the scored chunks by deviation descending,
keep only those at or above the minimum deviation threshold, deduplicate
near-identical clauses, and take the top `maxHighlights` (a
configuration bounded 3 to 5). -/
def selectHighlights (maxHighlights : Nat) (minDeviation : Int)
    (similar : ScoredChunk → ScoredChunk → Bool)
    (chunks : List ScoredChunk) : List ScoredChunk :=
  (dedupClauses similar
    ((sortDesc chunks).filter (fun c => minDeviation ≤ c.deviation))).take maxHighlights

/-- Outcome of highlight generation (spec sections 4.3 and 7): a
non-empty highlight set, the distinct no-anomalies signal for an empty
set, or a comparator error (reserved for infrastructure failures, never
produced by the selection itself). -/
inductive HighlightOutcome where
  | anomalies (clauses : List ScoredChunk)
  | noAnomalies
  | comparatorError (message : String)
deriving Repr, DecidableEq

/-- Modelled from the spec: highlight generation for a freshly indexed
document — select highlights and, when none survive selection, return
the distinct no-anomalies signal rather than an error (spec section 4.3
edge cases). -/
def generateHighlights (maxHighlights : Nat) (minDeviation : Int)
    (similar : ScoredChunk → ScoredChunk → Bool)
    (chunks : List ScoredChunk) : HighlightOutcome :=
  let selected := selectHighlights maxHighlights minDeviation similar chunks
  if selected.isEmpty then .noAnomalies else .anomalies selected

/-! ## Helper lemmas on the schema checkers -/

theorem isStringField_spec {j : Json} {key : String} (h : isStringField j key = true) :
    ∃ s, j.getField key = some (Json.str s) := by
  unfold isStringField at h
  split at h
  · next s heq => exact ⟨s, heq⟩
  · exact absurd h (by simp)

theorem isNumField_spec {j : Json} {key : String} (h : isNumField j key = true) :
    ∃ n, j.getField key = some (Json.num n) := by
  unfold isNumField at h
  split at h
  · next n heq => exact ⟨n, heq⟩
  · exact absurd h (by simp)

theorem isOptNumField_spec {j : Json} {key : String} (h : isOptNumField j key = true) :
    j.getField key = none ∨ ∃ n, j.getField key = some (Json.num n) := by
  unfold isOptNumField at h
  split at h
  · next heq => exact Or.inl heq
  · next n heq => exact Or.inr ⟨n, heq⟩
  · exact absurd h (by simp)

/-! ## Claim C2 -/

/-- C2: every value conforming to the `AnswerResponse` schema carries a
`question_type` that is exactly `policy_specific` or
`general_insurance`; the string literal union of types/index.ts admits
no third classification. -/
theorem answerResponse_questionType_binary (j : Json) (h : isAnswerResponse j = true) :
    j.getField "question_type" = some (Json.str "policy_specific") ∨
    j.getField "question_type" = some (Json.str "general_insurance") := by
  unfold isAnswerResponse at h
  simp only [Bool.and_eq_true] at h
  obtain ⟨⟨⟨⟨-, hq⟩, -⟩, -⟩, -⟩ := h
  split at hq
  · next q heq =>
    unfold isQuestionTypeValue at hq
    split at hq
    · next s =>
      simp only [Bool.or_eq_true, beq_iff_eq] at hq
      rcases hq with h1 | h2
      · exact Or.inl (by rw [heq, h1])
      · exact Or.inr (by rw [heq, h2])
    · exact absurd hq (by simp)
  · exact absurd hq (by simp)

/-- A concrete citation value conforming to the `Citation` schema. -/
def citationExample : Json :=
  Json.obj [("chunk_id", Json.str "chunk-7"),
            ("page_number", Json.num 4),
            ("text_snippet", Json.str "Selbstbeteiligung: 500 EUR"),
            ("relevance_score", Json.num 1)]

/-- A concrete value conforming to the `AnswerResponse` schema. -/
def answerResponseExample : Json :=
  Json.obj [("answer", Json.str "Die Selbstbeteiligung beträgt 500 EUR."),
            ("question_type", Json.str "policy_specific"),
            ("citations", Json.arr [citationExample]),
            ("web_sources", Json.arr []),
            ("confidence", Json.num 1)]

/-- Witness for C2 at a concrete answer value. -/
theorem answerResponse_questionType_binary_witness :
    answerResponseExample.getField "question_type" = some (Json.str "policy_specific") ∨
    answerResponseExample.getField "question_type" = some (Json.str "general_insurance") :=
  answerResponse_questionType_binary answerResponseExample rfl

/-! ## Claim C4 -/

/-- C4: every value conforming to the `Citation` schema records a string
chunk id, a string text snippet, a numeric relevance score, and a page
number that is either absent or numeric. -/
theorem citation_records_fields (j : Json) (h : isCitation j = true) :
    (∃ s, j.getField "chunk_id" = some (Json.str s)) ∧
    (j.getField "page_number" = none ∨ ∃ n, j.getField "page_number" = some (Json.num n)) ∧
    (∃ s, j.getField "text_snippet" = some (Json.str s)) ∧
    (∃ n, j.getField "relevance_score" = some (Json.num n)) := by
  unfold isCitation at h
  simp only [Bool.and_eq_true] at h
  obtain ⟨⟨⟨h1, h2⟩, h3⟩, h4⟩ := h
  exact ⟨isStringField_spec h1, isOptNumField_spec h2,
         isStringField_spec h3, isNumField_spec h4⟩

/-- Witness for C4 at a concrete citation value. -/
theorem citation_records_fields_witness :
    (∃ s, citationExample.getField "chunk_id" = some (Json.str s)) ∧
    (citationExample.getField "page_number" = none ∨
      ∃ n, citationExample.getField "page_number" = some (Json.num n)) ∧
    (∃ s, citationExample.getField "text_snippet" = some (Json.str s)) ∧
    (∃ n, citationExample.getField "relevance_score" = some (Json.num n)) :=
  citation_records_fields citationExample rfl

/-! ## Claim C1 -/

/-- A question request carrying only a question and no policy id. -/
def questionRequestWithoutPolicyId : Json :=
  Json.obj [("question", Json.str "Was bedeutet Selbstbeteiligung?")]

/-- C1 counterexample: a request with no document id has no `policy_id`
property and is rejected by the `QuestionRequest` schema of
types/index.ts, whose `policy_id: string` member is required — the
question-asking interface does not admit requests without a document
id. -/
theorem questionRequest_requires_policyId_counterexample :
    Json.hasField questionRequestWithoutPolicyId "policy_id" = false ∧
    isQuestionRequest questionRequestWithoutPolicyId = false :=
  ⟨rfl, rfl⟩

/-- C1 (amended): the router, modelled from the spec, classifies every
question submitted without a document id as `general_insurance`
regardless of content; the frontend `QuestionRequest` schema, however,
requires a `policy_id` on every admitted request. -/
theorem router_forces_general_without_document :
    (∀ (classify : String → QuestionType) (q : String),
        routeQuestion none classify q = QuestionType.general_insurance) ∧
    (∀ j : Json, isQuestionRequest j = true → isStringField j "policy_id" = true) := by
  refine ⟨fun classify q => rfl, fun j h => ?_⟩
  unfold isQuestionRequest at h
  exact ((Bool.and_eq_true _ _).mp h).1

/-- A concrete request conforming to the `QuestionRequest` schema. -/
def questionRequestExample : Json :=
  Json.obj [("policy_id", Json.str "policy-1"),
            ("question", Json.str "Welche Leistungen sind ausgeschlossen?")]

/-- Witness for C1 at concrete inputs: the router on a request with no
document id, and the schema fact at a concrete conforming request. -/
theorem router_forces_general_without_document_witness :
    routeQuestion none (fun _ => QuestionType.policy_specific) "Was sind meine Wartezeiten?"
      = QuestionType.general_insurance ∧
    isStringField questionRequestExample "policy_id" = true :=
  ⟨router_forces_general_without_document.1 _ _,
   router_forces_general_without_document.2 questionRequestExample rfl⟩

/-! ## Claim C3 -/

theorem mem_mapWithIndex {f : Nat → Json → HighlightedClause} {c : HighlightedClause} :
    ∀ {start : Nat} {l : List Json}, c ∈ mapWithIndex f start l →
      ∃ i h, h ∈ l ∧ c = f i h := by
  intro start l
  induction l generalizing start with
  | nil => intro hmem; cases hmem
  | cons a as ih =>
    intro hmem
    simp only [mapWithIndex] at hmem
    rcases List.mem_cons.mp hmem with hc | hc
    · exact ⟨start, a, List.mem_cons_self a as, hc⟩
    · obtain ⟨i, x, hx, hcx⟩ := ih hc
      exact ⟨i, x, List.mem_cons_of_mem a hx, hcx⟩

/-- C3: the boundary conversion of handleUploadComplete is total and
coercing — every produced clause arises from converting one incoming
payload value; for any payload shape, a missing or non-object `category`
defaults to `other`; `page_number` is set exactly when the incoming
value is a truthy object whose `page_number` field is a number; and a
non-object payload yields the all-defaults clause, so untyped data never
reaches the fixed `HighlightedClause` schema. -/
theorem uploadConversion_total_and_coercing (now : Int) (nowIso : String)
    (result : PolicyUploadResponse) :
    (∀ c ∈ (handleUploadComplete now nowIso result).highlighted_clauses,
        ∃ i h, h ∈ result.highlights ∧ c = convertHighlight i now h) ∧
    (∀ (i : Nat) (h : Json),
        ((isTruthyObject h && h.hasField "category") = false →
          (convertHighlight i now h).category = "other") ∧
        (∀ n : Int, (convertHighlight i now h).page_number = some n ↔
          isTruthyObject h = true ∧ h.getField "page_number" = some (Json.num n)) ∧
        (isTruthyObject h = false →
          convertHighlight i now h =
            ⟨"clause-" ++ toString i ++ "-" ++ toString now,
             "Unbenannte Klausel", "", "", "", "other", none⟩)) := by
  refine ⟨fun c hc => mem_mapWithIndex hc, fun i h => ⟨?_, ?_, ?_⟩⟩
  · intro hcond
    simp [convertHighlight, coerceStringField, hcond]
  · intro n
    constructor
    · intro hpn
      simp only [convertHighlight] at hpn
      split at hpn
      · next htrue =>
        split at hpn
        · next n' heq =>
          cases hpn
          exact ⟨htrue, heq⟩
        · exact absurd hpn (by simp)
      · exact absurd hpn (by simp)
    · intro ⟨ht, heq⟩
      simp [convertHighlight, ht, heq]
  · intro hfalse
    simp [convertHighlight, coerceStringField, hfalse]

/-- Witness for C3 at concrete malformed payloads: a bare string payload
gets the fallback category, and a null payload converts to the
all-defaults clause. -/
theorem uploadConversion_total_and_coercing_witness :
    (convertHighlight 0 0 (Json.str "überraschung")).category = "other" ∧
    convertHighlight 1 0 Json.null =
      ⟨"clause-1-0", "Unbenannte Klausel", "", "", "", "other", none⟩ :=
  ⟨((uploadConversion_total_and_coercing 0 "" ⟨"p", "f", 0, []⟩).2 0
      (Json.str "überraschung")).1 rfl,
   ((uploadConversion_total_and_coercing 0 "" ⟨"p", "f", 0, []⟩).2 1
      Json.null).2.2 rfl⟩

/-! ## Claim C8 -/

/-- C8: fetchApi never returns a value for a failed response — on a
non-ok status it throws an `ApiError` carrying that status and the
message built from the body (`detail` or `error` field, with the
status-text fallback on the catch path), and on an ok status it returns
the parsed JSON body; in particular a truthy string `detail` field
becomes the error message verbatim, and a JSON-null body (where the
source's property access throws and the catch engages) yields the
status text. -/
theorem fetchApi_error_handling (r : HttpResponse) :
    (responseOk r = false →
        fetchApi r = .apiError r.status (fetchApiErrorMessage r) ∧
        ∀ b, fetchApi r ≠ .success b) ∧
    (responseOk r = true → ∀ b, r.jsonBody = some b → fetchApi r = .success b) ∧
    (∀ body s, responseOk r = false → r.jsonBody = some body →
        body.getField "detail" = some (Json.str s) → s ≠ "" →
        fetchApi r = .apiError r.status s) ∧
    (responseOk r = false → r.jsonBody = some Json.null → r.statusText ≠ "" →
        fetchApi r = .apiError r.status r.statusText) := by
  refine ⟨?_, ?_, ?_, ?_⟩
  · intro hok
    simp [fetchApi, hok]
  · intro hok b hb
    simp [fetchApi, hok, hb]
  · intro body s hok hbody hdetail hs
    cases body with
    | null => simp [Json.getField] at hdetail
    | bool b => simp [Json.getField] at hdetail
    | num n => simp [Json.getField] at hdetail
    | str t => simp [Json.getField] at hdetail
    | arr xs =>
      rw [show Json.getField (Json.arr xs) "detail" = none from rfl] at hdetail
      cases hdetail
    | obj fields =>
      simp [fetchApi, hok, fetchApiErrorMessage, hbody, truthyStringOr, hdetail,
            Json.truthy, jsToString, hs]
  · intro hok hbody hst
    simp [fetchApi, hok, fetchApiErrorMessage, hbody, hst]

/-- A concrete failed response: HTTP 404 with a JSON body carrying a
`detail` field. -/
def notFoundResponse : HttpResponse :=
  ⟨404, "Not Found", some (Json.obj [("detail", Json.str "Policy nicht gefunden")])⟩

/-- A concrete ok response with an empty JSON object body. -/
def okResponse : HttpResponse :=
  ⟨200, "OK", some (Json.obj [])⟩

/-- A concrete failed response whose body is JSON null: the source
falls back to the status text through its catch path. -/
def nullBodyResponse : HttpResponse :=
  ⟨404, "Not Found", some Json.null⟩

/-- Witness for C8 at concrete responses: the 404 response with a
`detail` body throws the `ApiError` with the detail message and never
succeeds; the 404 response with a JSON-null body throws the `ApiError`
with the status text; the 200 response returns its parsed body. -/
theorem fetchApi_error_handling_witness :
    fetchApi notFoundResponse = .apiError 404 "Policy nicht gefunden" ∧
    (∀ b, fetchApi notFoundResponse ≠ .success b) ∧
    fetchApi nullBodyResponse = .apiError 404 "Not Found" ∧
    fetchApi okResponse = .success (Json.obj []) :=
  ⟨(fetchApi_error_handling notFoundResponse).2.2.1 _ "Policy nicht gefunden"
      rfl rfl rfl (by simp),
   ((fetchApi_error_handling notFoundResponse).1 rfl).2,
   (fetchApi_error_handling nullBodyResponse).2.2.2 rfl rfl (by decide),
   (fetchApi_error_handling okResponse).2.1 rfl _ rfl⟩

/-! ## Claim C9 -/

/-- C9: handleFile rejects, with an error message and without reaching
the upload API, every file whose MIME type does not include `pdf` and
every file over 50 * 1024 * 1024 bytes; a file is uploaded exactly when
it passes both checks. -/
theorem handleFile_validates_before_upload (f : UploadFile) :
    (stringIncludes f.mimeType "pdf" = false →
        handleFile f = .rejected "Bitte wählen Sie eine PDF-Datei aus.") ∧
    (stringIncludes f.mimeType "pdf" = true → f.size > 50 * 1024 * 1024 →
        handleFile f = .rejected "Die Datei ist zu groß. Maximum: 50MB") ∧
    (handleFile f = .uploaded ↔
        stringIncludes f.mimeType "pdf" = true ∧ f.size ≤ 50 * 1024 * 1024) := by
  refine ⟨fun h1 => by simp [handleFile, h1], fun h1 h2 => by simp [handleFile, h1, h2], ?_⟩
  constructor
  · intro hu
    by_cases h1 : stringIncludes f.mimeType "pdf" = true
    · by_cases h2 : f.size ≤ 50 * 1024 * 1024
      · exact ⟨h1, h2⟩
      · exact absurd hu (by simp [handleFile, h1, Nat.lt_of_not_le h2])
    · exact absurd hu (by simp [handleFile, Bool.eq_false_iff.mpr h1])
  · intro ⟨h1, h2⟩
    simp [handleFile, h1, Nat.not_lt.mpr h2]

/-- Witness for C9 at concrete files: a non-PDF file is rejected with
the message, an oversized PDF is rejected with the size message, and a
small PDF is uploaded. -/
theorem handleFile_validates_before_upload_witness :
    handleFile ⟨"text/plain", 10⟩ = .rejected "Bitte wählen Sie eine PDF-Datei aus." ∧
    handleFile ⟨"application/pdf", 50 * 1024 * 1024 + 1⟩ =
      .rejected "Die Datei ist zu groß. Maximum: 50MB" ∧
    handleFile ⟨"application/pdf", 1000⟩ = .uploaded :=
  ⟨(handleFile_validates_before_upload ⟨"text/plain", 10⟩).1 rfl,
   (handleFile_validates_before_upload ⟨"application/pdf", 50 * 1024 * 1024 + 1⟩).2.1
      rfl (by decide),
   (handleFile_validates_before_upload ⟨"application/pdf", 1000⟩).2.2.mpr
      ⟨rfl, by decide⟩⟩

/-! ## Claim C10 -/

/-- C10: the ask callback of the question tab is only ever invoked with
a question whose trimmed text is non-empty, the invocation resets the
question input state to the empty string, and a disabled button (blank
trimmed question) never produces an invocation. -/
theorem askClick_guards_and_resets (q : String) :
    (∀ q', (handleAskClick q).1 = some q' → jsTrim q' ≠ "") ∧
    ((handleAskClick q).1.isSome = true → (handleAskClick q).2 = "") ∧
    (askButtonDisabled q = true → (handleAskClick q).1 = none) := by
  by_cases h : jsTrim q = ""
  · refine ⟨?_, ?_, ?_⟩ <;> simp [handleAskClick, askButtonDisabled, h]
  · refine ⟨?_, ?_, ?_⟩
    · intro q' hq'
      simp only [handleAskClick, if_pos (bne_iff_ne.mpr h)] at hq'
      cases hq'
      exact h
    · intro _
      simp [handleAskClick, h]
    · intro hd
      exact absurd (by simpa [askButtonDisabled] using hd) h

/-- Witness for C10 at concrete questions: a real question resets the
input after invocation, and a blank question (disabled button) produces
no invocation. -/
theorem askClick_guards_and_resets_witness :
    (handleAskClick "Wie hoch ist meine Selbstbeteiligung?").2 = "" ∧
    (handleAskClick "   ").1 = none :=
  ⟨(askClick_guards_and_resets "Wie hoch ist meine Selbstbeteiligung?").2.1 rfl,
   (askClick_guards_and_resets "   ").2.2 rfl⟩

/-! ## Length and membership lemmas for the highlighter -/

theorem length_insertDesc (c : ScoredChunk) (l : List ScoredChunk) :
    (insertDesc c l).length = l.length + 1 := by
  induction l with
  | nil => rfl
  | cons x xs ih =>
    simp only [insertDesc]
    split
    · simp
    · simp [ih]

theorem length_sortDesc (l : List ScoredChunk) : (sortDesc l).length = l.length := by
  induction l with
  | nil => rfl
  | cons c cs ih => simp [sortDesc, length_insertDesc, ih]

theorem length_dedupClauses (similar : ScoredChunk → ScoredChunk → Bool) :
    ∀ l : List ScoredChunk, (dedupClauses similar l).length ≤ l.length
  | [] => by simp [dedupClauses]
  | c :: cs => by
      rw [dedupClauses]
      simp only [List.length_cons]
      have hfil : (cs.filter fun d => !(similar c d)).length ≤ cs.length :=
        List.length_filter_le _ _
      have hrec := length_dedupClauses similar (cs.filter fun d => !(similar c d))
      omega
termination_by l => l.length
decreasing_by
  exact Nat.lt_succ_of_le (List.length_filter_le _ _)

theorem mem_insertDesc {x c : ScoredChunk} {l : List ScoredChunk}
    (h : x ∈ insertDesc c l) : x = c ∨ x ∈ l := by
  induction l with
  | nil => simpa [insertDesc] using h
  | cons y ys ih =>
    simp only [insertDesc] at h
    split at h
    · rcases List.mem_cons.mp h with h1 | h1
      · exact Or.inl h1
      · exact Or.inr h1
    · rcases List.mem_cons.mp h with h1 | h1
      · exact Or.inr (h1 ▸ List.mem_cons_self y ys)
      · rcases ih h1 with h2 | h2
        · exact Or.inl h2
        · exact Or.inr (List.mem_cons_of_mem y h2)

theorem mem_sortDesc {x : ScoredChunk} {l : List ScoredChunk}
    (h : x ∈ sortDesc l) : x ∈ l := by
  induction l with
  | nil => simp [sortDesc] at h
  | cons c cs ih =>
    simp only [sortDesc] at h
    rcases mem_insertDesc h with h1 | h1
    · exact h1 ▸ List.mem_cons_self c cs
    · exact List.mem_cons_of_mem c (ih h1)

/-! ## Claim C5 -/

/-- C5: highlight selection with a configured bound of at most 5
produces between 0 and 5 highlights and never more than the number of
chunks in the document (the Norm Comparator is modelled from the spec,
the backend being unimplemented scaffolding). -/
theorem highlight_count_bounded (maxHighlights : Nat) (minDeviation : Int)
    (similar : ScoredChunk → ScoredChunk → Bool) (chunks : List ScoredChunk)
    (hN : maxHighlights ≤ 5) :
    (selectHighlights maxHighlights minDeviation similar chunks).length ≤ 5 ∧
    (selectHighlights maxHighlights minDeviation similar chunks).length ≤ chunks.length := by
  unfold selectHighlights
  have htake := List.length_take maxHighlights
    (dedupClauses similar ((sortDesc chunks).filter fun c => minDeviation ≤ c.deviation))
  have hdedup := length_dedupClauses similar
    ((sortDesc chunks).filter fun c => minDeviation ≤ c.deviation)
  have hfil := List.length_filter_le (fun c => decide (minDeviation ≤ c.deviation))
    (sortDesc chunks)
  have hsort := length_sortDesc chunks
  constructor
  · omega
  · omega

/-- A concrete scored chunk above any zero threshold. -/
def scoredChunkExample : ScoredChunk := ⟨"chunk-1", "Klauseltext", 3, some 2⟩

/-- Witness for C5 at a concrete one-chunk document with the bound
configured to 5. -/
theorem highlight_count_bounded_witness :
    (selectHighlights 5 0 (fun _ _ => false) [scoredChunkExample]).length ≤ 5 ∧
    (selectHighlights 5 0 (fun _ _ => false) [scoredChunkExample]).length ≤
      [scoredChunkExample].length :=
  highlight_count_bounded 5 0 (fun _ _ => false) [scoredChunkExample] (by decide)

/-! ## Claim C6 -/

/-- C6: for a document whose chunks are all near-identical to norms
(every deviation score below the minimum threshold), highlight
generation returns the distinct no-anomalies signal — an empty highlight
set and not an error — and the Highlights tab renders the empty set as
the normal empty-state block (the PolicyTabs component has no error
rendering). -/
theorem no_anomalies_normal_result (maxHighlights : Nat) (minDeviation : Int)
    (similar : ScoredChunk → ScoredChunk → Bool) (chunks : List ScoredChunk)
    (hall : ∀ c ∈ chunks, c.deviation < minDeviation) :
    generateHighlights maxHighlights minDeviation similar chunks =
      HighlightOutcome.noAnomalies ∧
    (∀ msg, HighlightOutcome.noAnomalies ≠ HighlightOutcome.comparatorError msg) ∧
    renderHighlightsTab [] = HighlightsPanel.emptyState := by
  have hfil : (sortDesc chunks).filter (fun c => minDeviation ≤ c.deviation) = [] := by
    rw [List.filter_eq_nil_iff]
    intro a ha
    simp only [decide_eq_true_eq, not_le]
    exact hall a (mem_sortDesc ha)
  refine ⟨?_, ?_, rfl⟩
  · simp [generateHighlights, selectHighlights, hfil, dedupClauses]
  · intro msg hmsg
    exact HighlightOutcome.noConfusion hmsg

/-- Witness for C6 at a concrete document whose single chunk scores
below the threshold. -/
theorem no_anomalies_normal_result_witness :
    generateHighlights 5 10 (fun _ _ => false) [⟨"chunk-1", "Standardklausel", 0, none⟩] =
      HighlightOutcome.noAnomalies ∧
    (∀ msg, HighlightOutcome.noAnomalies ≠ HighlightOutcome.comparatorError msg) ∧
    renderHighlightsTab [] = HighlightsPanel.emptyState :=
  no_anomalies_normal_result 5 10 (fun _ _ => false)
    [⟨"chunk-1", "Standardklausel", 0, none⟩] (by decide)

/-! ## Claim C7 -/

/-- C7: chunking is deterministic — running the modelled Chunking and
Embedding Unit twice on identical input text yields identical chunk
boundaries and the same chunk count. -/
theorem chunking_deterministic (maxTokens overlap : Nat) (t1 t2 : String)
    (h : t1 = t2) :
    chunkText maxTokens overlap t1 = chunkText maxTokens overlap t2 ∧
    (chunkText maxTokens overlap t1).length = (chunkText maxTokens overlap t2).length := by
  subst h
  exact ⟨rfl, rfl⟩

/-- Witness for C7 at a concrete text and the spec example
configuration of 500 tokens with 50 overlap. -/
theorem chunking_deterministic_witness :
    chunkText 500 50 "Die Wartezeit beträgt drei Monate" =
      chunkText 500 50 "Die Wartezeit beträgt drei Monate" ∧
    (chunkText 500 50 "Die Wartezeit beträgt drei Monate").length =
      (chunkText 500 50 "Die Wartezeit beträgt drei Monate").length :=
  chunking_deterministic 500 50 _ _ rfl
